import Mathlib

/-!
Shallow embedding of `commit-changes.py`: a command runner with timeout
protection (`run_command_with_timeout`) and a deployment driver (`main`)
that sequences five fixed git/gh steps.

The external world is modelled by an environment `Env` assigning to each
command line and timeout the outcome of executing it as a child process.
The driver is embedded as a pure function returning its final boolean
together with the trace of observable events (working-directory change,
command invocations with their timeouts, and the fixed sleep).
-/

namespace CommitChanges

/-- Captured result of a child process that ran to completion, mirroring
`subprocess.CompletedProcess`: exit status plus captured text output. -/
structure CmdResult where
  returncode : Int
  stdout : String
  stderr : String
  deriving DecidableEq

/-- Outcome of attempting to execute one child process: it either completes
within the timeout with a `CmdResult`, exceeds the timeout, or faults in
some other way (e.g. a spawn error). -/
inductive ExecOutcome where
  | ok (result : CmdResult) : ExecOutcome
  | timeout : ExecOutcome
  | error (msg : String) : ExecOutcome
  deriving DecidableEq

/-- The environment: for each command line and timeout, the outcome of the
child process. -/
def Env : Type := String → Nat → ExecOutcome

/-- A Python exception, as relevant to the runner: `subprocess.TimeoutExpired`
or any other exception caught by the catch-all handler. -/
inductive PyExn where
  | timeoutExpired (timeout : Nat) : PyExn
  | other (msg : String) : PyExn
  deriving DecidableEq

/-- Result of running a Python computation: a value, or a raised exception. -/
inductive PyResult (α : Type) where
  | val (a : α) : PyResult α
  | exn (e : PyExn) : PyResult α
  deriving DecidableEq

/-- Denotation of the `subprocess.run(cmd, shell=True, capture_output=True,
text=True, timeout=timeout)` call: a completed process yields its result,
exceeding the timeout raises `TimeoutExpired`, any other execution fault
raises some other exception. -/
def subprocess_run (env : Env) (cmd : String) (timeout : Nat) : PyResult CmdResult :=
  match env cmd timeout with
  | ExecOutcome.ok r => PyResult.val r
  | ExecOutcome.timeout => PyResult.exn (PyExn.timeoutExpired timeout)
  | ExecOutcome.error m => PyResult.exn (PyExn.other m)

/-- `run_command_with_timeout(cmd, timeout)` from the source, lines 8-37.
As a Python function it could in principle raise, so its denotation lives in
`PyResult`; the body runs the subprocess, returns `True` exactly on exit
status 0, and its two `except` clauses (`subprocess.TimeoutExpired` and the
catch-all `Exception`) both return `False`. The source's default
`timeout=300` is never used: every call site passes an explicit timeout. -/
def run_command_with_timeout (env : Env) (cmd : String) (timeout : Nat) : PyResult Bool :=
  match subprocess_run env cmd timeout with
  | PyResult.val r => PyResult.val (decide (r.returncode = 0))
  | PyResult.exn (PyExn.timeoutExpired _) => PyResult.val false
  | PyResult.exn (PyExn.other _) => PyResult.val false

/-- The boolean the caller observes from `run_command_with_timeout`. The
exception branch is unreachable (see `runner_never_raises`); it is mapped to
`false` only to make this a total `Bool`-valued view for the driver. -/
def run_ok (env : Env) (cmd : String) (timeout : Nat) : Bool :=
  match run_command_with_timeout env cmd timeout with
  | PyResult.val b => b
  | PyResult.exn _ => false

/-- An observable event of the driver: changing the working directory,
invoking a command with a given timeout, or sleeping. -/
inductive Event where
  | chdir (path : String) : Event
  | run (cmd : String) (timeout : Nat) : Event
  | sleep (secs : Nat) : Event
  deriving DecidableEq

/-- The hardcoded working directory (source line 45). -/
def workDir : String := "/Users/damondecrescenzo/dev_framework_demo"

/-- Step 1 command (source line 50). -/
def statusCmd : String := "git status --porcelain"

/-- Step 2 command (source line 56). -/
def addCmd : String := "git add ."

/-- The hardcoded multi-line commit message (source lines 62-88). -/
def commit_message : String := "fix: resolve GitHub Actions syntax hanging and add comprehensive deployment protection

🔧 CRITICAL FIXES APPLIED:
- Fixed all GitHub Actions syntax escaping in install-framework-smart.sh
- Resolved 45+ instances of unescaped $\x7b\x7b \x7d\x7d patterns causing shell hanging
- Added timeout protection and debug logging throughout installation script
- Protected npm install and all long-running commands with timeouts

🛡️ DEPLOYMENT PROTECTION ADDED:
- Created deploy-with-timeout.sh with comprehensive error handling
- Added validate-installation-syntax.sh for pre-deployment validation
- Implemented signal handlers and automatic cleanup on interruption
- Added timestamped debug logging with color-coded output

🚀 PRODUCTION READY FEATURES:
- Installation script now hang-proof with 30-minute max runtime
- GitHub Actions workflows properly configured with escaped syntax
- Complete security automation (Dependabot, SonarCloud, Qodo) integrated
- Comprehensive testing and validation scripts included

✅ DEPLOYMENT VERIFICATION:
- All GitHub Actions patterns properly escaped as \\$\x7b\x7b \x7d\x7d
- Timeout protection on all critical operations
- Debug logging for complete visibility
- Automatic cleanup prevents hanging processes

This resolves the critical deployment blocker and ensures reliable installation on new repositories."

/-- Step 3 command: the f-string `git commit -m \"{commit_message}\"`
(source line 90). -/
def commitCmd : String := "git commit -m \"" ++ commit_message ++ "\""

/-- Step 4 command (source line 95). -/
def pushCmd : String := "git push"

/-- Step 5 command (source line 105). -/
def ghCmd : String := "gh run list --limit 3"

/-- `main()` from the source, lines 39-110: change into the hardcoded
working directory, then run the five steps strictly in order, aborting with
`False` when the status check, staging, or push fails; a commit failure only
prints a warning, and the final pipeline check (after a 10-second sleep)
never affects the returned boolean. The returned trace lists the observable
events in the order they happen. -/
def main (env : Env) : Bool × List Event :=
  -- Step 0: os.chdir to the hardcoded path, then Step 1: git status
  let tr1 : List Event := [Event.chdir workDir, Event.run statusCmd 30]
  if run_ok env statusCmd 30 then
    -- Step 2: git add .
    let tr2 := tr1 ++ [Event.run addCmd 60]
    if run_ok env addCmd 60 then
      -- Step 3: git commit; a failure only prints a warning and continues
      let tr3 := tr2 ++ [Event.run commitCmd 60]
      let _commitOk := run_ok env commitCmd 60
      -- Step 4: git push
      let tr4 := tr3 ++ [Event.run pushCmd 120]
      if run_ok env pushCmd 120 then
        -- Step 5: time.sleep(10) then gh run list; result only chooses a message
        let tr5 := tr4 ++ [Event.sleep 10, Event.run ghCmd 30]
        if run_ok env ghCmd 30 then (true, tr5) else (true, tr5)
      else (false, tr4)
    else (false, tr2)
  else (false, tr1)

/-- The `__main__` block, source lines 112-122: exit code 0 when `main()`
returned `True`, exit code 1 otherwise. -/
def program_exit_code (env : Env) : Nat :=
  if (main env).fst then 0 else 1

/-- The complete event sequence of a run in which no fatal step fails. -/
def fullTrace : List Event :=
  [Event.chdir workDir, Event.run statusCmd 30, Event.run addCmd 60,
   Event.run commitCmd 60, Event.run pushCmd 120, Event.sleep 10,
   Event.run ghCmd 30]

/-- Whatever the environment does, the driver's trace is an initial segment
of the full event sequence: events only ever happen in the fixed order. -/
theorem main_trace_initial (env : Env) :
    ∃ rest, fullTrace = (main env).snd ++ rest := by
  cases hs : run_ok env statusCmd 30 <;> cases ha : run_ok env addCmd 60 <;>
    cases hp : run_ok env pushCmd 120 <;> cases hg : run_ok env ghCmd 30 <;>
    simp [main, fullTrace, hs, ha, hp, hg]

/-- Two execution outcomes agree on everything the runner's boolean is
derived from: same exit status if both completed, both timed out, or both
faulted — the captured stdout/stderr text and fault message are ignored. -/
def sameStatus : ExecOutcome → ExecOutcome → Bool
  | ExecOutcome.ok r, ExecOutcome.ok r2 => r.returncode == r2.returncode
  | ExecOutcome.timeout, ExecOutcome.timeout => true
  | ExecOutcome.error _, ExecOutcome.error _ => true
  | _, _ => false

/-- Environment in which every child process completes with exit status 0
and empty output. -/
def envAllOk : Env := fun _ _ => ExecOutcome.ok ⟨0, "", ""⟩

/-- Environment in which every child process exceeds its timeout. -/
def envTimeoutAll : Env := fun _ _ => ExecOutcome.timeout

/-- Environment in which the status, add and push commands succeed and every
other command (in particular the commit) exits with status 1. -/
def envCommitFail : Env := fun c _ =>
  if c = statusCmd ∨ c = addCmd ∨ c = pushCmd then ExecOutcome.ok ⟨0, "", ""⟩
  else ExecOutcome.ok ⟨1, "", ""⟩

/-- Environment in which the push command fails to spawn and every other
command succeeds with empty output. -/
def envPushFail : Env := fun c _ =>
  if c = pushCmd then ExecOutcome.error "spawn failure" else ExecOutcome.ok ⟨0, "", ""⟩

/-- Environment in which the gh pipeline-listing command faults and every
other command succeeds with empty output. -/
def envGhFail : Env := fun c _ =>
  if c = ghCmd then ExecOutcome.error "gh: authentication required"
  else ExecOutcome.ok ⟨0, "", ""⟩

/-- Environment in which every command exits 0 printing a fixed text. -/
def envOutA : Env := fun _ _ => ExecOutcome.ok ⟨0, "output variant A", "err A"⟩

/-- Environment like `envOutA` but with different captured output text. -/
def envOutB : Env := fun _ _ => ExecOutcome.ok ⟨0, "output variant B", ""⟩

/-- Claim C2: the runner returns `True` exactly when the child process
completes within the timeout with exit status 0, and returns `False` in
every other case — a non-zero exit status, a timeout, and a spawn fault all
alike. -/
theorem runner_true_iff_exit_zero (env : Env) (cmd : String) (t : Nat) :
    (run_command_with_timeout env cmd t = PyResult.val true ↔
      ∃ r, env cmd t = ExecOutcome.ok r ∧ r.returncode = 0) ∧
    (run_command_with_timeout env cmd t = PyResult.val false ↔
      ¬ ∃ r, env cmd t = ExecOutcome.ok r ∧ r.returncode = 0) := by
  cases he : env cmd t with
  | ok r =>
      by_cases h0 : r.returncode = 0 <;>
        simp [run_command_with_timeout, subprocess_run, he, h0]
  | timeout => simp [run_command_with_timeout, subprocess_run, he]
  | error m => simp [run_command_with_timeout, subprocess_run, he]

/-- Claim C9: the runner is total from the caller's point of view — for
every invocation it returns a boolean value and never propagates an
exception, the timeout and catch-all handlers covering every fault. -/
theorem runner_never_raises (env : Env) (cmd : String) (t : Nat) :
    run_command_with_timeout env cmd t = PyResult.val (run_ok env cmd t) := by
  unfold run_ok run_command_with_timeout subprocess_run
  cases env cmd t <;> rfl

/-- Claim C10: the runner's boolean depends only on the exit-status/timeout
class of the outcome, never on the captured stdout/stderr text or fault
message: outcomes agreeing on that class yield the same runner result. -/
theorem runner_ignores_output_text (env env2 : Env) (cmd : String) (t : Nat)
    (h : sameStatus (env cmd t) (env2 cmd t) = true) :
    run_command_with_timeout env cmd t = run_command_with_timeout env2 cmd t := by
  cases he : env cmd t <;> cases he2 : env2 cmd t <;>
    rw [he, he2] at h <;>
    simp [sameStatus] at h <;>
    simp [run_command_with_timeout, subprocess_run, he, he2, h]

/-- Witness for C10: at exit status 0 with different captured output texts
the runner returns the same value. -/
theorem runner_ignores_output_text_witness :
    sameStatus (envOutA statusCmd 30) (envOutB statusCmd 30) = true ∧
      run_command_with_timeout envOutA statusCmd 30 =
        run_command_with_timeout envOutB statusCmd 30 :=
  ⟨rfl, runner_ignores_output_text envOutA envOutB statusCmd 30 rfl⟩

theorem ghCmd_ne_statusCmd : ghCmd ≠ statusCmd := by decide

/-- Claim C1: the process exits with code 0 exactly when the driver reports
overall success, i.e. exactly when the push step was reached and succeeded;
it exits with code 1 exactly when the status check, staging, or push step
fails. -/
theorem exit_code_zero_iff_push_succeeds (env : Env) :
    (program_exit_code env = 0 ↔
      (Event.run pushCmd 120 ∈ (main env).snd ∧ run_ok env pushCmd 120 = true)) ∧
    (program_exit_code env = 1 ↔
      (run_ok env statusCmd 30 = false ∨ run_ok env addCmd 60 = false ∨
        run_ok env pushCmd 120 = false)) := by
  cases hs : run_ok env statusCmd 30 <;> cases ha : run_ok env addCmd 60 <;>
    cases hp : run_ok env pushCmd 120 <;> cases hg : run_ok env ghCmd 30 <;>
    simp [program_exit_code, main, hs, ha, hp, hg]

/-- Claim C3: if the status-check step fails, the driver stops immediately —
the trace holds no staging, commit, push, or pipeline-check invocation — and
returns failure. -/
theorem status_failure_aborts (env : Env) (h : run_ok env statusCmd 30 = false) :
    main env = (false, [Event.chdir workDir, Event.run statusCmd 30]) := by
  simp [main, h]

/-- Witness for C3: with every command timing out, the status check fails
and the driver's result is exactly the aborted trace. -/
theorem status_failure_aborts_witness :
    run_ok envTimeoutAll statusCmd 30 = false ∧
      main envTimeoutAll = (false, [Event.chdir workDir, Event.run statusCmd 30]) :=
  ⟨rfl, status_failure_aborts envTimeoutAll rfl⟩

/-- Claim C4: a commit-step failure does not abort the sequence — when the
status, add and push steps succeed, the driver's overall result is success
even though the commit command exited non-zero. -/
theorem commit_failure_not_fatal (env : Env)
    (hs : run_ok env statusCmd 30 = true) (ha : run_ok env addCmd 60 = true)
    (hc : run_ok env commitCmd 60 = false) (hp : run_ok env pushCmd 120 = true) :
    (main env).fst = true := by
  simp [main, hs, ha, hp]

/-- Witness for C4: in the environment where the commit command exits 1 and
the other git commands exit 0, the driver still reports success. -/
theorem commit_failure_not_fatal_witness :
    run_ok envCommitFail statusCmd 30 = true ∧ run_ok envCommitFail addCmd 60 = true ∧
      run_ok envCommitFail commitCmd 60 = false ∧
      run_ok envCommitFail pushCmd 120 = true ∧ (main envCommitFail).fst = true :=
  ⟨by decide, by decide, by decide, by decide,
    commit_failure_not_fatal envCommitFail (by decide) (by decide) (by decide) (by decide)⟩

/-- Claim C5: when status, add and commit succeed but the push fails, the
overall outcome is failure with exit code 1 and the pipeline-list step (and
its preceding sleep) is never attempted. -/
theorem push_failure_skips_pipeline_check (env : Env)
    (hs : run_ok env statusCmd 30 = true) (ha : run_ok env addCmd 60 = true)
    (hc : run_ok env commitCmd 60 = true) (hp : run_ok env pushCmd 120 = false) :
    main env = (false, [Event.chdir workDir, Event.run statusCmd 30,
        Event.run addCmd 60, Event.run commitCmd 60, Event.run pushCmd 120]) ∧
      program_exit_code env = 1 ∧
      Event.run ghCmd 30 ∉ (main env).snd ∧ Event.sleep 10 ∉ (main env).snd := by
  have hm : main env = (false, [Event.chdir workDir, Event.run statusCmd 30,
      Event.run addCmd 60, Event.run commitCmd 60, Event.run pushCmd 120]) := by
    simp [main, hs, ha, hp]
  refine ⟨hm, by simp [program_exit_code, hm], ?_, ?_⟩
  · rw [hm]
    simp [ghCmd_ne_statusCmd]
  · rw [hm]
    simp

/-- Witness for C5: with a push spawn failure and every other command
succeeding, the driver aborts after the push with exit code 1. -/
theorem push_failure_skips_pipeline_check_witness :
    run_ok envPushFail statusCmd 30 = true ∧ run_ok envPushFail addCmd 60 = true ∧
      run_ok envPushFail commitCmd 60 = true ∧ run_ok envPushFail pushCmd 120 = false ∧
      (main envPushFail = (false, [Event.chdir workDir, Event.run statusCmd 30,
          Event.run addCmd 60, Event.run commitCmd 60, Event.run pushCmd 120]) ∧
        program_exit_code envPushFail = 1 ∧
        Event.run ghCmd 30 ∉ (main envPushFail).snd ∧
        Event.sleep 10 ∉ (main envPushFail).snd) :=
  ⟨by decide, by decide, by decide, by decide,
    push_failure_skips_pipeline_check envPushFail
      (by decide) (by decide) (by decide) (by decide)⟩

/-- Claim C6: whenever the push step is reached and succeeds, the driver's
final result is success — whatever the pipeline-listing step does. -/
theorem push_success_overall_success (env : Env)
    (hmem : Event.run pushCmd 120 ∈ (main env).snd)
    (hp : run_ok env pushCmd 120 = true) :
    (main env).fst = true := by
  cases hs : run_ok env statusCmd 30 <;> cases ha : run_ok env addCmd 60 <;>
    simp [main, hs, ha, hp] at hmem ⊢

/-- Witness for C6: with every git command succeeding and the gh
pipeline-listing command faulting, the driver still reports success. -/
theorem push_success_overall_success_witness :
    Event.run pushCmd 120 ∈ (main envGhFail).snd ∧
      run_ok envGhFail pushCmd 120 = true ∧ (main envGhFail).fst = true :=
  ⟨by decide, by decide, push_success_overall_success envGhFail (by decide) (by decide)⟩

/-- Claim C7: the driver's observable events always form an initial segment
of the fixed sequence working-directory change, status check, stage, commit,
push, 10-second sleep, pipeline listing — no step ever happens out of this
order, and the sequence is strictly sequential by construction. -/
theorem steps_in_fixed_order (env : Env) :
    ∃ rest, fullTrace = (main env).snd ++ rest :=
  main_trace_initial env

/-- Claim C8: every command the driver invokes carries a per-step timeout
between 30 and 300 seconds inclusive, specifically 30s for the status check,
60s for staging, 60s for the commit, 120s for the push and 30s for the
pipeline listing. -/
theorem step_timeouts_in_range (env : Env) (cmd : String) (t : Nat)
    (h : Event.run cmd t ∈ (main env).snd) :
    30 ≤ t ∧ t ≤ 300 ∧
      ((cmd = statusCmd ∧ t = 30) ∨ (cmd = addCmd ∧ t = 60) ∨
        (cmd = commitCmd ∧ t = 60) ∨ (cmd = pushCmd ∧ t = 120) ∨
        (cmd = ghCmd ∧ t = 30)) := by
  obtain ⟨rest, hr⟩ := main_trace_initial env
  have hmem : Event.run cmd t ∈ fullTrace := by
    rw [hr]
    exact List.mem_append_left rest h
  simp [fullTrace] at hmem
  rcases hmem with ⟨h1, h2⟩ | ⟨h1, h2⟩ | ⟨h1, h2⟩ | ⟨h1, h2⟩ | ⟨h1, h2⟩ <;>
    subst h1 <;> subst h2 <;> simp

/-- Witness for C8: the status-check invocation, present in the all-ok run,
has timeout 30, lying in the 30-300 range. -/
theorem step_timeouts_in_range_witness :
    Event.run statusCmd 30 ∈ (main envAllOk).snd ∧
      (30 ≤ 30 ∧ 30 ≤ 300 ∧
        ((statusCmd = statusCmd ∧ 30 = 30) ∨ (statusCmd = addCmd ∧ 30 = 60) ∨
          (statusCmd = commitCmd ∧ 30 = 60) ∨ (statusCmd = pushCmd ∧ 30 = 120) ∨
          (statusCmd = ghCmd ∧ 30 = 30))) :=
  ⟨by decide, step_timeouts_in_range envAllOk statusCmd 30 (by decide)⟩

end CommitChanges
